import Mathlib

/-!
Verification development for the Quintile QR-code generator.

The definitions below are a shallow embedding of the TypeScript sources:
`src/src/App.tsx` (the `QRCodeGenerator` component: its state, the
`getQRValue` payload encoder, and the `saveQRCode` / `deleteQRCode` /
`loadQRCode` handlers together with the input-sync effect) and
`src/src/utils/formatUrl.tsx` (`formatUrl`). Strings are modelled by
Lean `String` (lists of Unicode scalar values); JavaScript's
`encodeURIComponent` builtin is embedded with its ECMA-262 semantics
(UTF-8 percent-encoding with uppercase hex digits, leaving the
unescaped set `A-Z a-z 0-9 - _ . ! ~ * ' ( )` intact), and the regex
test `url.match(/^https?:\x7b...\x7d/i)` of `formatUrl` is embedded as a
case-insensitive (ASCII folding) literal-prefix test.
-/

namespace Quintile

/-- Content modes, from `type Mode` in `src/src/App.tsx`. -/
inductive Mode where
  | text | link | email | phone | sms | wifi | vcard
deriving DecidableEq, Repr

/-- Error-correction levels, from `type ErrorCorrectionLevel`. -/
inductive ErrorCorrectionLevel where
  | L | M | Q | H
deriving DecidableEq, Repr

/-- Module styles, from `type QRCodeStyle`. -/
inductive QRCodeStyle where
  | dots | squares | rounded
deriving DecidableEq, Repr

/-- Render options, from `interface QRCodeOptions` in `src/src/App.tsx`. -/
structure QRCodeOptions where
  bgColor : String
  fgColor : String
  size : Nat
  errorCorrectionLevel : ErrorCorrectionLevel
  style : QRCodeStyle
  includeMargin : Bool
  logoImage : Option String
  logoWidth : Nat
  logoHeight : Nat
deriving DecidableEq, Repr

/-- Email-mode fields, from the `emailFields` state. -/
structure EmailFields where
  «to» : String
  subject : String
  body : String
deriving DecidableEq, Repr

/-- SMS-mode fields, from the `smsFields` state. -/
structure SmsFields where
  number : String
  message : String
deriving DecidableEq, Repr

/-- WiFi-mode fields, from the `wifiFields` state. -/
structure WifiFields where
  ssid : String
  password : String
  encryption : String
deriving DecidableEq, Repr

/-- Contact-card fields, from the `vcardFields` state. -/
structure VcardFields where
  firstName : String
  lastName : String
  organization : String
  title : String
  email : String
  phone : String
  website : String
  address : String
deriving DecidableEq, Repr

/-- A saved snapshot, from `interface SavedQRCode` in `src/src/App.tsx`. -/
structure SavedQRCode where
  id : String
  name : String
  mode : Mode
  input : String
  options : QRCodeOptions
  createdAt : Nat
deriving DecidableEq, Repr

/-- The component state relevant to the claims: the `useState` cells of
`QRCodeGenerator` that the encoder and the save/load/delete handlers read
or write. -/
structure AppState where
  mode : Mode
  input : String
  options : QRCodeOptions
  savedQRCodes : List SavedQRCode
  qrName : String
  showSaveDialog : Bool
  showHistory : Bool
  emailFields : EmailFields
  phoneField : String
  smsFields : SmsFields
  wifiFields : WifiFields
  vcardFields : VcardFields
deriving DecidableEq, Repr

/-- Char-list prefix test: `listStartsWith l p` is true when `p` is a
prefix of `l`. Used to embed JavaScript's `String.prototype.startsWith`
(which is prefix testing on the character sequence). -/
def listStartsWith : List Char → List Char → Bool
  | _, [] => true
  | [], _ :: _ => false
  | c :: cs, p :: ps => c == p && listStartsWith cs ps

/-- Embedding of `input.startsWith(pat)` from the TypeScript source. -/
def strStartsWith (s pat : String) : Bool :=
  listStartsWith s.data pat.data

/-- ASCII lower-casing of a string, used to embed the `/i` flag of the
regex in `formatUrl` (the pattern `https?:` is pure ASCII, so ASCII
folding is faithful on it). -/
def lowerStr (s : String) : String :=
  ⟨s.data.map Char.toLower⟩

/-- Embedding of the test `url.match(/^https?:\x7b...\x7d/i)` from
`src/src/utils/formatUrl.tsx`: does the string start, case-insensitively,
with `http://` or `https://`. -/
def matchesHttpCI (u : String) : Bool :=
  strStartsWith (lowerStr u) "http://" || strStartsWith (lowerStr u) "https://"

/-- Embedding of `formatUrl` from `src/src/utils/formatUrl.tsx`:
`if (url && !url.match(/^https?:\x7b...\x7d/i)) return "https://" + url;
return url;` (a JavaScript string is falsy exactly when empty). -/
def formatUrl (url : String) : String :=
  if url ≠ "" ∧ matchesHttpCI url = false then "https://" ++ url else url

/-- The link branch of `getQRValue` (`src/src/App.tsx` line 193):
`input.startsWith("http") ? input : "https://" + input`. -/
def linkNormalize (input : String) : String :=
  if strStartsWith input "http" then input else "https://" ++ input

/-- Uppercase hexadecimal digit for `n < 16`. -/
def hexDigitUpper (n : Nat) : Char :=
  if n < 10 then Char.ofNat (48 + n) else Char.ofNat (55 + n)

/-- Percent-escape of one byte, uppercase hex (as `encodeURIComponent`
produces). -/
def percentByte (b : Nat) : String :=
  "%" ++ String.singleton (hexDigitUpper (b / 16)) ++
    String.singleton (hexDigitUpper (b % 16))

/-- UTF-8 byte sequence of a Unicode scalar value. -/
def utf8Encode (n : Nat) : List Nat :=
  if n < 128 then [n]
  else if n < 2048 then [192 + n / 64, 128 + n % 64]
  else if n < 65536 then [224 + n / 4096, 128 + (n / 64) % 64, 128 + n % 64]
  else [240 + n / 262144, 128 + (n / 4096) % 64, 128 + (n / 64) % 64,
        128 + n % 64]

/-- The ECMA-262 `uriUnescaped` set for `encodeURIComponent`:
ASCII letters, digits, and `- _ . ! ~ * ' ( )`. -/
def isURIUnescaped (c : Char) : Bool :=
  c.isAlpha || c.isDigit ||
    (c ∈ ['-', '_', '.', '!', '~', '*', Char.ofNat 39, '(', ')'])

/-- Embedding of JavaScript's `encodeURIComponent` builtin (ECMA-262):
characters in the unescaped set pass through, every other character is
replaced by the uppercase percent-encoding of its UTF-8 bytes. -/
def encodeURIComponent (s : String) : String :=
  String.join (s.data.map fun c =>
    if isURIUnescaped c then String.singleton c
    else String.join ((utf8Encode c.toNat).map percentByte))

/-- Embedding of `getQRValue` from `src/src/App.tsx` lines 188-229: the
mode-to-payload encoder. -/
def getQRValue (s : AppState) : String :=
  match s.mode with
  | Mode.text => s.input
  | Mode.link => linkNormalize s.input
  | Mode.email =>
      "mailto:" ++ s.emailFields.«to» ++ "?subject=" ++
        encodeURIComponent s.emailFields.subject ++ "&body=" ++
        encodeURIComponent s.emailFields.body
  | Mode.phone => "tel:" ++ s.phoneField
  | Mode.sms =>
      "sms:" ++ s.smsFields.number ++ "?body=" ++
        encodeURIComponent s.smsFields.message
  | Mode.wifi =>
      "WIFI:S:" ++ s.wifiFields.ssid ++ ";T:" ++ s.wifiFields.encryption ++
        ";P:" ++ s.wifiFields.password ++ ";;"
  | Mode.vcard =>
      "BEGIN:VCARD\nVERSION:3.0\nN:" ++ s.vcardFields.lastName ++ ";" ++
        s.vcardFields.firstName ++ ";;;\nFN:" ++ s.vcardFields.firstName ++
        " " ++ s.vcardFields.lastName ++ "\nORG:" ++
        s.vcardFields.organization ++ "\nTITLE:" ++ s.vcardFields.title ++
        "\nEMAIL:" ++ s.vcardFields.email ++ "\nTEL:" ++
        s.vcardFields.phone ++ "\nURL:" ++ s.vcardFields.website ++
        "\nADR:;;" ++ s.vcardFields.address ++ ";;;\nEND:VCARD"

/-- The snapshot record built by `saveQRCode` (`src/src/App.tsx` lines
338-345); `now` stands for `Date.now()`. -/
def mkSavedQRCode (now : Nat) (s : AppState) : SavedQRCode :=
  { id := toString now
    name := if s.qrName = "" then "QR Code " ++ toString (s.savedQRCodes.length + 1)
            else s.qrName
    mode := s.mode
    input := getQRValue s
    options := s.options
    createdAt := now }

/-- Embedding of `saveQRCode` (`src/src/App.tsx` lines 335-350):
`if (!input) return;` then prepend the new snapshot, clear the name
field and close the save dialog. -/
def saveQRCode (now : Nat) (s : AppState) : AppState :=
  if s.input = "" then s
  else
    { s with
      savedQRCodes := mkSavedQRCode now s :: s.savedQRCodes
      qrName := ""
      showSaveDialog := false }

/-- Embedding of `deleteQRCode` (`src/src/App.tsx` lines 352-354):
keep the snapshots whose id differs. -/
def deleteQRCode (id : String) (s : AppState) : AppState :=
  { s with savedQRCodes := s.savedQRCodes.filter (fun code => code.id != id) }

/-- Embedding of `loadQRCode` (`src/src/App.tsx` lines 356-361). -/
def loadQRCode (saved : SavedQRCode) (s : AppState) : AppState :=
  { s with
    mode := saved.mode
    input := saved.input
    options := saved.options
    showHistory := false }

/-- Embedding of the input-sync effect (`src/src/App.tsx` lines 744-748):
`if (mode !== "text" && mode !== "link") setInput(getQRValue());`. -/
def syncInput (s : AppState) : AppState :=
  if s.mode ≠ Mode.text ∧ s.mode ≠ Mode.link then { s with input := getQRValue s }
  else s

/-- The `DEFAULT_OPTIONS` constant of `src/src/App.tsx`. -/
def DEFAULT_OPTIONS : QRCodeOptions :=
  { bgColor := "#FFFFFF"
    fgColor := "#000000"
    size := 256
    errorCorrectionLevel := ErrorCorrectionLevel.M
    style := QRCodeStyle.squares
    includeMargin := true
    logoImage := none
    logoWidth := 50
    logoHeight := 50 }

/-- The initial component state (the `useState` initialisers of
`QRCodeGenerator`). -/
def initialState : AppState :=
  { mode := Mode.text
    input := ""
    options := DEFAULT_OPTIONS
    savedQRCodes := []
    qrName := ""
    showSaveDialog := false
    showHistory := false
    emailFields := { «to» := "", subject := "", body := "" }
    phoneField := ""
    smsFields := { number := "", message := "" }
    wifiFields := { ssid := "", password := "", encryption := "WPA" }
    vcardFields :=
      { firstName := "", lastName := "", organization := "", title := ""
        email := "", phone := "", website := "", address := "" } }

/-- Decomposition of a character sequence into its newline-separated
lines (the reading of "each on its own line" in the spec): splitting on
`'\n'`, so that `splitOnNl ('a' :: '\n' :: 'b' :: [])` is `[['a'], ['b']]`
and a blank line shows up as `[]`. -/
def splitOnNl : List Char → List (List Char)
  | [] => [[]]
  | c :: cs =>
      if c = '\n' then [] :: splitOnNl cs
      else
        match splitOnNl cs with
        | [] => [[c]]
        | l :: ls => (c :: l) :: ls

/-- The eleven lines of the contact-card template of `getQRValue`
(`src/src/App.tsx` lines 207-217), in source order. -/
def vcardLines (f : VcardFields) : List String :=
  ["BEGIN:VCARD",
   "VERSION:3.0",
   "N:" ++ f.lastName ++ ";" ++ f.firstName ++ ";;;",
   "FN:" ++ f.firstName ++ " " ++ f.lastName,
   "ORG:" ++ f.organization,
   "TITLE:" ++ f.title,
   "EMAIL:" ++ f.email,
   "TEL:" ++ f.phone,
   "URL:" ++ f.website,
   "ADR:;;" ++ f.address ++ ";;;",
   "END:VCARD"]

/-- Link-mode state whose input carries an upper-case scheme. -/
def stLinkCaps : AppState :=
  { initialState with mode := Mode.link, input := "HTTP://example.com" }

/-- Link-mode state with a bare domain as input. -/
def stLinkEx : AppState :=
  { initialState with mode := Mode.link, input := "example.com" }

/-- Text-mode state with a nonempty input. -/
def stTextEx : AppState :=
  { initialState with input := "hello" }

/-- Email-mode state as in the spec's worked example. -/
def stEmailEx : AppState :=
  { initialState with
    mode := Mode.email
    input := "x"
    emailFields := { «to» := "a@b.com", subject := "Hi", body := "Hello there" } }

/-- Email-mode state with all three email fields empty. -/
def stEmailEmpty : AppState :=
  { initialState with mode := Mode.email, input := "x" }

/-- Email-mode state with a recipient filled in, as it stands when the
user saves a snapshot. -/
def stSaveEmail : AppState :=
  { initialState with
    mode := Mode.email
    input := "mailto:a@b.com?subject=&body="
    emailFields := { «to» := "a@b.com", subject := "", body := "" } }

/-- WiFi-mode state as in the spec's worked example. -/
def stWifiEx : AppState :=
  { initialState with
    mode := Mode.wifi
    wifiFields := { ssid := "Home", password := "secret", encryption := "WPA" } }

/-- Contact-card state with ordinary single-line fields. -/
def stVcardEx : AppState :=
  { initialState with
    mode := Mode.vcard
    vcardFields :=
      { firstName := "Ada", lastName := "Lovelace", organization := "Analytical"
        title := "Countess", email := "ada@example.com", phone := "+1555"
        website := "example.com", address := "1 Church St" } }

/-- Contact-card state whose address field contains newline characters
(the address input is a multi-line textarea in the source). -/
def stVcardNl : AppState :=
  { initialState with
    mode := Mode.vcard
    vcardFields :=
      { firstName := "", lastName := "", organization := "", title := ""
        email := "", phone := "", website := "", address := "a\n\nb" } }

lemma strData_append (a b : String) : (a ++ b).data = a.data ++ b.data := rfl

lemma listStartsWith_nil (l : List Char) : listStartsWith l [] = true := by
  cases l <;> rfl

lemma listStartsWith_append_pat (l q r : List Char)
    (h : listStartsWith l (q ++ r) = true) : listStartsWith l q = true := by
  induction q generalizing l with
  | nil => exact listStartsWith_nil l
  | cons qc qs ih =>
      cases l with
      | nil => simp [listStartsWith] at h
      | cons c cs =>
          simp only [List.cons_append, listStartsWith, Bool.and_eq_true] at h ⊢
          exact ⟨h.1, ih cs h.2⟩

lemma listStartsWith_map (f : Char → Char) (l q : List Char)
    (h : listStartsWith l q = true) :
    listStartsWith (l.map f) (q.map f) = true := by
  induction q generalizing l with
  | nil => exact listStartsWith_nil _
  | cons qc qs ih =>
      cases l with
      | nil => simp [listStartsWith] at h
      | cons c cs =>
          simp only [List.map, listStartsWith, Bool.and_eq_true, beq_iff_eq] at h ⊢
          exact ⟨by rw [h.1], ih cs h.2⟩

lemma listStartsWith_extend (p t q : List Char)
    (h : listStartsWith p q = true) : listStartsWith (p ++ t) q = true := by
  induction q generalizing p with
  | nil => exact listStartsWith_nil _
  | cons qc qs ih =>
      cases p with
      | nil => simp [listStartsWith] at h
      | cons c cs =>
          simp only [List.cons_append, listStartsWith, Bool.and_eq_true] at h ⊢
          exact ⟨h.1, ih cs h.2⟩

lemma strStartsWith_https_http (u : String) :
    strStartsWith ("https://" ++ u) "http" = true := by
  show listStartsWith ("https://" ++ u).data "http".data = true
  rw [strData_append]
  exact listStartsWith_extend _ _ _ (by decide)

lemma linkNormalize_idem (u : String) :
    linkNormalize (linkNormalize u) = linkNormalize u := by
  cases hb : strStartsWith u "http" with
  | true => simp [linkNormalize, hb]
  | false => simp [linkNormalize, hb, strStartsWith_https_http]

lemma splitOnNl_no_nl (l : List Char) (h : '\n' ∉ l) : splitOnNl l = [l] := by
  induction l with
  | nil => rfl
  | cons c cs ih =>
      have hc : ¬c = '\n' := by rintro rfl; exact h (List.mem_cons_self _ _)
      have hcs : '\n' ∉ cs := fun m => h (List.mem_cons_of_mem _ m)
      simp only [splitOnNl, if_neg hc, ih hcs]

lemma splitOnNl_append_nl (a rest : List Char) (h : '\n' ∉ a) :
    splitOnNl (a ++ '\n' :: rest) = a :: splitOnNl rest := by
  induction a with
  | nil => simp [splitOnNl]
  | cons c cs ih =>
      have hc : ¬c = '\n' := by rintro rfl; exact h (List.mem_cons_self _ _)
      have hcs : '\n' ∉ cs := fun m => h (List.mem_cons_of_mem _ m)
      simp only [List.cons_append, splitOnNl, if_neg hc, List.append_eq, ih hcs]

lemma splitOnNl_intercalate (ls : List (List Char)) (hne : ls ≠ [])
    (h : ∀ l ∈ ls, '\n' ∉ l) :
    splitOnNl (List.intercalate ['\n'] ls) = ls := by
  induction ls with
  | nil => exact absurd rfl hne
  | cons a as ih =>
      cases as with
      | nil =>
          have hi : List.intercalate ['\n'] [a] = a := by
            simp [List.intercalate, List.intersperse]
          rw [hi]
          exact splitOnNl_no_nl a (h a (List.mem_cons_self _ _))
      | cons b bs =>
          have hstep : List.intercalate ['\n'] (a :: b :: bs) =
              a ++ '\n' :: List.intercalate ['\n'] (b :: bs) := by
            simp [List.intercalate, List.intersperse]
          rw [hstep, splitOnNl_append_nl a _ (h a (List.mem_cons_self _ _)),
            ih (by simp) (fun l hl => h l (List.mem_cons_of_mem _ hl))]

lemma syncInput_mode (s : AppState) : (syncInput s).mode = s.mode := by
  unfold syncInput
  split <;> rfl

lemma syncInput_options (s : AppState) : (syncInput s).options = s.options := by
  unfold syncInput
  split <;> rfl

lemma getQRValue_vcard_data (s : AppState) (h : s.mode = Mode.vcard) :
    (getQRValue s).data =
      List.intercalate ['\n'] ((vcardLines s.vcardFields).map String.data) := by
  obtain ⟨m, inp, o, sv, nm, dlg, hist, ef, pf, sf, wf, vf⟩ := s
  obtain ⟨fn, ln, og, tt, em, ph, wb, ad⟩ := vf
  subst h
  have hA : ("BEGIN:VCARD\nVERSION:3.0\nN:" : String).data =
      "BEGIN:VCARD".data ++ '\n' :: ("VERSION:3.0".data ++ '\n' :: "N:".data) := rfl
  have hB : (";;;\nFN:" : String).data = ";;;".data ++ '\n' :: "FN:".data := rfl
  have hC : ("\nORG:" : String).data = '\n' :: "ORG:".data := rfl
  have hD : ("\nTITLE:" : String).data = '\n' :: "TITLE:".data := rfl
  have hE : ("\nEMAIL:" : String).data = '\n' :: "EMAIL:".data := rfl
  have hF : ("\nTEL:" : String).data = '\n' :: "TEL:".data := rfl
  have hG : ("\nURL:" : String).data = '\n' :: "URL:".data := rfl
  have hH : ("\nADR:;;" : String).data = '\n' :: "ADR:;;".data := rfl
  have hI : (";;;\nEND:VCARD" : String).data =
      ";;;".data ++ '\n' :: "END:VCARD".data := rfl
  simp only [getQRValue, vcardLines, List.map, List.intercalate, List.intersperse,
    List.flatten_cons, List.flatten_nil, strData_append, hA, hB, hC, hD, hE, hF, hG, hH, hI,
    List.cons_append, List.append_assoc, List.singleton_append, List.nil_append,
    List.append_nil]

/-- C1 counterexample: the claim's link rule fails on the code. The input
`HTTP://example.com` carries an `http://` prefix case-insensitively, so the
claim demands it pass through unchanged; `getQRValue` tests only for the
literal lowercase `http` and prepends `https://` to it. -/
theorem C1_link_spec_counterexample :
    stLinkCaps.mode = Mode.link ∧ matchesHttpCI stLinkCaps.input = true ∧
      getQRValue stLinkCaps ≠ stLinkCaps.input := by decide

/-- C1 (amended): in link mode the encoder returns the input unchanged
when it starts with the literal four characters `http` (case-sensitively),
and otherwise returns the input with `https://` prepended. -/
theorem C1_link_normalization (s : AppState) (h : s.mode = Mode.link) :
    (strStartsWith s.input "http" = true → getQRValue s = s.input) ∧
    (strStartsWith s.input "http" = false → getQRValue s = "https://" ++ s.input) := by
  obtain ⟨m, inp, o, sv, nm, dlg, hist, ef, pf, sf, wf, vf⟩ := s
  have hm : m = Mode.link := h
  subst hm
  constructor <;> intro hh <;> simp [getQRValue, linkNormalize, hh]

/-- C1 witness: `example.com` does not start with `http`, so the encoder
prepends `https://`. -/
theorem C1_link_normalization_witness :
    stLinkEx.mode = Mode.link ∧ strStartsWith stLinkEx.input "http" = false ∧
      getQRValue stLinkEx = "https://" ++ stLinkEx.input :=
  ⟨rfl, by decide, (C1_link_normalization stLinkEx rfl).2 (by decide)⟩

/-- C2 counterexample: a snapshot saved in email mode does not reproduce
its payload on load. The snapshot stores only the rendered payload string,
not the email fields; after loading, the input-sync effect recomputes the
payload from the current (empty) email fields, so the live payload differs
from the saved one. -/
theorem C2_roundtrip_counterexample :
    stSaveEmail.input ≠ "" ∧
      getQRValue (syncInput (loadQRCode (mkSavedQRCode 0 stSaveEmail) initialState)) ≠
        getQRValue stSaveEmail := by decide

/-- C2 (amended): saving then loading a snapshot reproduces the mode and
the render options for every mode; the payload string is reproduced when
the snapshot's mode is text or link. (For the other modes the payload is
recomputed from the current mode-specific form fields, which the snapshot
does not store.) -/
theorem C2_roundtrip_text_link (s s2 : AppState) (now : Nat) (h1 : s.input ≠ "") :
    (saveQRCode now s).savedQRCodes = mkSavedQRCode now s :: s.savedQRCodes ∧
    (syncInput (loadQRCode (mkSavedQRCode now s) s2)).mode = s.mode ∧
    (syncInput (loadQRCode (mkSavedQRCode now s) s2)).options = s.options ∧
    ((s.mode = Mode.text ∨ s.mode = Mode.link) →
      getQRValue (syncInput (loadQRCode (mkSavedQRCode now s) s2)) = getQRValue s) := by
  refine ⟨?_, ?_, ?_, ?_⟩
  · obtain ⟨m, inp, o, sv, nm, dlg, hist, ef, pf, sf, wf, vf⟩ := s
    have h1' : inp ≠ "" := h1
    simp [saveQRCode, h1']
  · rw [syncInput_mode]
    rfl
  · rw [syncInput_options]
    rfl
  · intro h2
    obtain ⟨m, inp, o, sv, nm, dlg, hist, ef, pf, sf, wf, vf⟩ := s
    rcases h2 with h2 | h2
    · have hm : m = Mode.text := h2
      subst hm
      rfl
    · have hm : m = Mode.link := h2
      subst hm
      show linkNormalize (linkNormalize inp) = linkNormalize inp
      exact linkNormalize_idem inp

/-- C2 witness: a text snapshot with input `hello` round-trips through
save and load, reproducing mode, render options, and payload. -/
theorem C2_roundtrip_text_link_witness :
    stTextEx.input ≠ "" ∧
    ((saveQRCode 0 stTextEx).savedQRCodes =
        mkSavedQRCode 0 stTextEx :: stTextEx.savedQRCodes ∧
      (syncInput (loadQRCode (mkSavedQRCode 0 stTextEx) initialState)).mode =
        stTextEx.mode ∧
      (syncInput (loadQRCode (mkSavedQRCode 0 stTextEx) initialState)).options =
        stTextEx.options ∧
      getQRValue (syncInput (loadQRCode (mkSavedQRCode 0 stTextEx) initialState)) =
        getQRValue stTextEx) :=
  ⟨by decide,
    (C2_roundtrip_text_link stTextEx initialState 0 (by decide)).1,
    (C2_roundtrip_text_link stTextEx initialState 0 (by decide)).2.1,
    (C2_roundtrip_text_link stTextEx initialState 0 (by decide)).2.2.1,
    (C2_roundtrip_text_link stTextEx initialState 0 (by decide)).2.2.2 (Or.inl rfl)⟩

/-- C3: the payload is a pure function of the mode and the field set —
for any two render-option values the encoder produces the same payload
string, since `getQRValue` never reads `options`. -/
theorem C3_payload_independent_of_options (s : AppState) (o1 o2 : QRCodeOptions) :
    getQRValue { s with options := o1 } = getQRValue { s with options := o2 } := rfl

/-- C4: in email mode the encoder returns
`mailto:<to>?subject=<encoded subject>&body=<encoded body>`, where the
subject and body are percent-encoded and a space encodes as `%20`. -/
theorem C4_email_payload (s : AppState) (h : s.mode = Mode.email) :
    getQRValue s = "mailto:" ++ s.emailFields.«to» ++ "?subject=" ++
        encodeURIComponent s.emailFields.subject ++ "&body=" ++
        encodeURIComponent s.emailFields.body ∧
      encodeURIComponent " " = "%20" := by
  obtain ⟨m, inp, o, sv, nm, dlg, hist, ef, pf, sf, wf, vf⟩ := s
  have hm : m = Mode.email := h
  subst hm
  exact ⟨rfl, by decide⟩

/-- C4 witness: the spec's worked example — to `a@b.com`, subject `Hi`,
body `Hello there` — yields `mailto:a@b.com?subject=Hi&body=Hello%20there`. -/
theorem C4_email_payload_witness :
    stEmailEx.mode = Mode.email ∧
      getQRValue stEmailEx = "mailto:a@b.com?subject=Hi&body=Hello%20there" ∧
      encodeURIComponent " " = "%20" :=
  ⟨rfl, ((C4_email_payload stEmailEx rfl).1).trans (by decide),
    (C4_email_payload stEmailEx rfl).2⟩

/-- C5 counterexample: with an address field containing newlines (the
address input is a multi-line textarea), the contact-card record contains
a blank line and its line count is not the template's eleven, so the
fixed-order one-field-per-line property fails as universally stated. -/
theorem C5_vcard_counterexample :
    stVcardNl.mode = Mode.vcard ∧
    [] ∈ splitOnNl (getQRValue stVcardNl).data ∧
    (splitOnNl (getQRValue stVcardNl).data).length ≠ 11 := by decide

/-- C5 (amended): in vcard mode, provided no field contains a newline
character, the lines of the encoder's output are exactly the fixed
template lines — version markers, structured name (last;first), formatted
name, organization, title, email, phone, website, unstructured address,
terminator — in that order, each on its own line, with no blank lines. -/
theorem C5_vcard_lines (s : AppState) (h : s.mode = Mode.vcard)
    (hf1 : '\n' ∉ s.vcardFields.firstName.data)
    (hf2 : '\n' ∉ s.vcardFields.lastName.data)
    (hf3 : '\n' ∉ s.vcardFields.organization.data)
    (hf4 : '\n' ∉ s.vcardFields.title.data)
    (hf5 : '\n' ∉ s.vcardFields.email.data)
    (hf6 : '\n' ∉ s.vcardFields.phone.data)
    (hf7 : '\n' ∉ s.vcardFields.website.data)
    (hf8 : '\n' ∉ s.vcardFields.address.data) :
    splitOnNl (getQRValue s).data = (vcardLines s.vcardFields).map String.data ∧
      ∀ l ∈ (vcardLines s.vcardFields).map String.data, l ≠ [] := by
  have hll : ∀ l ∈ (vcardLines s.vcardFields).map String.data, '\n' ∉ l := by
    intro l hl
    simp only [vcardLines, List.map_cons, List.map_nil, List.mem_cons,
      List.not_mem_nil, or_false] at hl
    rcases hl with rfl | rfl | rfl | rfl | rfl | rfl | rfl | rfl | rfl | rfl | rfl <;>
      simp_all [strData_append, List.mem_append]
  refine ⟨?_, ?_⟩
  · rw [getQRValue_vcard_data s h]
    exact splitOnNl_intercalate _ (by simp [vcardLines]) hll
  · intro l hl
    simp only [vcardLines, List.map_cons, List.map_nil, List.mem_cons,
      List.not_mem_nil, or_false] at hl
    rcases hl with rfl | rfl | rfl | rfl | rfl | rfl | rfl | rfl | rfl | rfl | rfl <;>
      simp [strData_append]

/-- C5 witness: a contact card with ordinary single-line fields splits
into exactly the eleven template lines, none blank. -/
theorem C5_vcard_lines_witness :
    stVcardEx.mode = Mode.vcard ∧
    (splitOnNl (getQRValue stVcardEx).data =
        (vcardLines stVcardEx.vcardFields).map String.data ∧
      ∀ l ∈ (vcardLines stVcardEx.vcardFields).map String.data, l ≠ []) :=
  ⟨rfl, C5_vcard_lines stVcardEx rfl (by decide) (by decide) (by decide)
    (by decide) (by decide) (by decide) (by decide) (by decide)⟩

/-- C6: in wifi mode, for every field set whose encryption is `WPA`,
`WEP` or `nopass`, the encoder returns exactly
`WIFI:S:<ssid>;T:<encryption>;P:<password>;;`. -/
theorem C6_wifi_payload (s : AppState) (h : s.mode = Mode.wifi)
    (henc : s.wifiFields.encryption = "WPA" ∨ s.wifiFields.encryption = "WEP" ∨
      s.wifiFields.encryption = "nopass") :
    getQRValue s = "WIFI:S:" ++ s.wifiFields.ssid ++ ";T:" ++
      s.wifiFields.encryption ++ ";P:" ++ s.wifiFields.password ++ ";;" := by
  obtain ⟨m, inp, o, sv, nm, dlg, hist, ef, pf, sf, wf, vf⟩ := s
  have hm : m = Mode.wifi := h
  subst hm
  rfl

/-- C6 witness: ssid `Home`, password `secret`, encryption `WPA` yields
`WIFI:S:Home;T:WPA;P:secret;;`. -/
theorem C6_wifi_payload_witness :
    stWifiEx.mode = Mode.wifi ∧ stWifiEx.wifiFields.encryption = "WPA" ∧
      getQRValue stWifiEx = "WIFI:S:Home;T:WPA;P:secret;;" :=
  ⟨rfl, rfl,
    (C6_wifi_payload stWifiEx rfl (Or.inl rfl)).trans (by decide)⟩

/-- C7: the encoder is total — it returns a string for every state — and
empty fields are emitted as empty template segments: in email mode with
all three fields empty the result is exactly `mailto:?subject=&body=`. -/
theorem C7_empty_fields_empty_segments (s : AppState) :
    (∃ r : String, getQRValue s = r) ∧
    (s.mode = Mode.email → s.emailFields.«to» = "" → s.emailFields.subject = "" →
      s.emailFields.body = "" → getQRValue s = "mailto:?subject=&body=") := by
  refine ⟨⟨getQRValue s, rfl⟩, ?_⟩
  intro h ht hs hb
  obtain ⟨m, inp, o, sv, nm, dlg, hist, ef, pf, sf, wf, vf⟩ := s
  obtain ⟨t, su, b⟩ := ef
  have hm : m = Mode.email := h
  have ht' : t = "" := ht
  have hs' : su = "" := hs
  have hb' : b = "" := hb
  subst hm; subst ht'; subst hs'; subst hb'
  rfl

/-- C7 witness: the email-mode state with empty to, subject and body
encodes to `mailto:?subject=&body=`. -/
theorem C7_empty_fields_empty_segments_witness :
    stEmailEmpty.mode = Mode.email ∧
      getQRValue stEmailEmpty = "mailto:?subject=&body=" :=
  ⟨rfl, (C7_empty_fields_empty_segments stEmailEmpty).2 rfl rfl rfl rfl⟩

/-- C8: deleting an identifier removes exactly the snapshots with that
identifier; every other snapshot is kept unchanged, in its original
relative order (the result is a sublist of the original list). -/
theorem C8_delete_frame (s : AppState) (i : String) :
    List.Sublist (deleteQRCode i s).savedQRCodes s.savedQRCodes ∧
    ∀ c : SavedQRCode, c ∈ (deleteQRCode i s).savedQRCodes ↔
      (c ∈ s.savedQRCodes ∧ c.id ≠ i) := by
  constructor
  · exact List.filter_sublist _
  · intro c
    simp [deleteQRCode, List.mem_filter]

/-- C9 counterexample: the two link-normalisation implementations
disagree on the empty string — `formatUrl` returns it unchanged (it is
falsy in JavaScript) while the link branch of `getQRValue` prepends
`https://`. -/
theorem C9_counterexample : formatUrl "" ≠ linkNormalize "" := by decide

/-- C9 (amended): the two implementations agree on every input that
starts with the literal `http://` or `https://`, and on every nonempty
input whose lower-cased form does not start with `http`; they disagree
in general (for example on the empty string). -/
theorem C9_formatUrl_link_agree (u : String)
    (h : strStartsWith u "http://" = true ∨ strStartsWith u "https://" = true ∨
      (u ≠ "" ∧ strStartsWith (lowerStr u) "http" = false)) :
    formatUrl u = linkNormalize u := by
  rcases h with h | h | ⟨hne, hlow⟩
  · have h4 : strStartsWith u "http" = true :=
      listStartsWith_append_pat u.data "http".data "://".data
        (show listStartsWith u.data ("http".data ++ "://".data) = true from h)
    have hm : matchesHttpCI u = true := by
      have hmap := listStartsWith_map Char.toLower u.data "http://".data h
      have he : "http://".data.map Char.toLower = "http://".data := by decide
      rw [he] at hmap
      simp [matchesHttpCI, strStartsWith, lowerStr, hmap]
    simp [formatUrl, linkNormalize, hm, h4]
  · have h4 : strStartsWith u "http" = true :=
      listStartsWith_append_pat u.data "http".data "s://".data
        (show listStartsWith u.data ("http".data ++ "s://".data) = true from h)
    have hm : matchesHttpCI u = true := by
      have hmap := listStartsWith_map Char.toLower u.data "https://".data h
      have he : "https://".data.map Char.toLower = "https://".data := by decide
      rw [he] at hmap
      simp [matchesHttpCI, strStartsWith, lowerStr, hmap]
    simp [formatUrl, linkNormalize, hm, h4]
  · have hlow' : listStartsWith (lowerStr u).data "http".data = false := hlow
    have hm : matchesHttpCI u = false := by
      cases hc7 : strStartsWith (lowerStr u) "http://" with
      | true =>
          have k := listStartsWith_append_pat (lowerStr u).data "http".data "://".data
            (show listStartsWith (lowerStr u).data ("http".data ++ "://".data) = true
              from hc7)
          rw [hlow'] at k
          simp at k
      | false =>
          cases hc8 : strStartsWith (lowerStr u) "https://" with
          | true =>
              have k := listStartsWith_append_pat (lowerStr u).data "http".data
                "s://".data
                (show listStartsWith (lowerStr u).data ("http".data ++ "s://".data) =
                  true from hc8)
              rw [hlow'] at k
              simp at k
          | false => simp [matchesHttpCI, hc7, hc8]
    have hstart : strStartsWith u "http" = false := by
      cases hs : strStartsWith u "http" with
      | false => rfl
      | true =>
          have k := listStartsWith_map Char.toLower u.data "http".data hs
          have he : "http".data.map Char.toLower = "http".data := by decide
          rw [he] at k
          rw [show (lowerStr u).data = u.data.map Char.toLower from rfl] at hlow'
          rw [hlow'] at k
          simp at k
    simp [formatUrl, linkNormalize, hm, hstart, hne]

/-- C9 witness: on `example.com` — nonempty and with no `http` prefix in
any casing — both implementations produce `https://example.com`. -/
theorem C9_formatUrl_link_agree_witness :
    ("example.com" ≠ "" ∧ strStartsWith (lowerStr "example.com") "http" = false) ∧
      formatUrl "example.com" = linkNormalize "example.com" :=
  ⟨⟨by decide, by decide⟩,
    C9_formatUrl_link_agree "example.com" (Or.inr (Or.inr ⟨by decide, by decide⟩))⟩

/-- C10: with an empty live input the save operation is a no-op — the
whole state, the saved-snapshot list included, is returned unchanged. -/
theorem C10_save_noop_empty (now : Nat) (s : AppState) (h : s.input = "") :
    saveQRCode now s = s := by
  simp [saveQRCode, h]

/-- C10 witness: saving from the initial state (whose input is empty)
changes nothing. -/
theorem C10_save_noop_empty_witness :
    initialState.input = "" ∧ saveQRCode 0 initialState = initialState :=
  ⟨rfl, C10_save_noop_empty 0 initialState rfl⟩

end Quintile
